import Mathlib

/-!
Shallow embedding of the FLASHPLATE watchlist application core.

Source files embedded:
- `src/unnamed/part_000` (the React `App` component): `normalizePlate`,
  `addPlate`, `removePlate`, the membership test used in `processFrame`,
  the session-log update, the alert write with its 5-second `setTimeout`
  clear, and the per-tick single-flight discipline of `processFrame`.
- `src/geminiService.ts`: `detectPlatesFromImage`.

External collaborators (camera, canvas, the generative-AI call, wall clock,
audio element) are modelled as explicit parameters/oracles; the app logic
itself is translated line by line.
-/

namespace FlashPlate

/-- Character class of the regex `[A-Z0-9]` used by `normalizePlate`
(`src/unnamed/part_000` line 15): ASCII uppercase letters (codepoints
65–90) and digits (48–57). -/
def isPlateChar (c : Char) : Bool :=
  decide (65 ≤ c.toNat ∧ c.toNat ≤ 90) || decide (48 ≤ c.toNat ∧ c.toNat ≤ 57)

/-- `val.toUpperCase().replace(/[^A-Z0-9]/g, '')` on the character list:
uppercase each character, then drop every character outside `[A-Z0-9]`. -/
def normalizeChars (l : List Char) : List Char :=
  (l.map Char.toUpper).filter isPlateChar

/-- `normalizePlate` from `src/unnamed/part_000` line 15:
`(val) => val.toUpperCase().replace(/[^A-Z0-9]/g, '')`. -/
def normalizePlate (s : String) : String :=
  String.mk (normalizeChars s.data)

/-- The `Plate` record stored in the watchlist:
`{ id, number, createdAt }` (see `addPlate`, lines 53–57). -/
structure Plate where
  id : String
  number : String
  createdAt : Nat
  deriving DecidableEq, Repr

/-- The two `alert(...)` failure modes of `addPlate`
("Plaque trop courte" and "Déjà surveillé"); the spec groups both
under `ValidationError`. -/
inductive ValidationError where
  | tooShort
  | alreadyWatched
  deriving DecidableEq, Repr

/-- `addPlate` from `src/unnamed/part_000` lines 43–60. `freshId` stands for
`crypto.randomUUID()` and `now` for `Date.now()`, both external inputs.
Returns the updated plate list together with the reported error, if any;
on error the list is returned unchanged (the code returns before
`setPlates`). -/
def addPlate (freshId : String) (now : Nat) (raw : String)
    (plates : List Plate) : List Plate × Option ValidationError :=
  let normalized := normalizePlate raw
  if normalized.length < 4 then
    (plates, some ValidationError.tooShort)
  else if plates.any (fun p => p.number == normalized) then
    (plates, some ValidationError.alreadyWatched)
  else
    ({ id := freshId, number := normalized, createdAt := now } :: plates, none)

/-- `removePlate` from `src/unnamed/part_000` lines 62–64:
`setPlates(plates.filter(p => p.id !== id))`. -/
def removePlate (id : String) (plates : List Plate) : List Plate :=
  plates.filter (fun p => p.id ≠ id)

/-- The membership test of `processFrame` line 119:
`plates.some(p => p.number === norm)`. -/
def containsToken (plates : List Plate) (tok : String) : Bool :=
  plates.any (fun p => p.number == tok)

/-! ## Detection service (`src/geminiService.ts`) -/

/-- Outcome of the external `ai.models.generateContent` call: either the
awaited promise rejects (`apiError`), or it resolves and `response.text`
is absent (`none`) or present. -/
inductive GenAIResult where
  | apiError
  | ok (text : Option String)
  deriving DecidableEq, Repr

/-- Outcome of `JSON.parse(resultText.trim())` followed by the
`Array.isArray(result.plates)` check: the parse throws (`parseError`),
or yields an object whose `plates` field is an array (`some ps`) or
is not an array / missing (`none`). -/
inductive ParseResult where
  | parseError
  | object (plates : Option (List String))
  deriving DecidableEq, Repr

/-- `detectPlatesFromImage` from `src/geminiService.ts` lines 7–54.
`api` is the outcome of the external call and `parse` the behaviour of
`JSON.parse` on the response text; both are oracles for the external
world. Every failure path (`catch`) returns the empty list. The JS guard
`!base64Image || base64Image.length < 50` collapses to the length test,
since the empty string has length 0 < 50. -/
def detectPlatesFromImage (api : GenAIResult) (parse : String → ParseResult)
    (base64Image : String) : List String :=
  if base64Image.length < 50 then []
  else
    match api with
    | GenAIResult.apiError => []
    | GenAIResult.ok none => []
    | GenAIResult.ok (some t) =>
      if t = "" then []
      else
        match parse t with
        | ParseResult.parseError => []
        | ParseResult.object none => []
        | ParseResult.object (some ps) => ps

/-! ## Per-tick processing (`processFrame`, `src/unnamed/part_000` lines 96–139)

`processFrame` is an async function: the synchronous prefix (guards, flag
set, frame capture, issuing the detection call) runs at the timer tick,
and the continuation after `await detectPlatesFromImage(...)` runs when
the call resolves. We embed it as two functions, `tickStart` and
`tickFinish`, over an explicit component state. -/

/-- The mode enum (`AppMode.LIST` / `AppMode.FLASH`); `FLASH` is the
spec's `Capturing` state and `LIST` its `Idle` state. -/
inductive AppMode where
  | LIST
  | FLASH
  deriving DecidableEq, Repr

/-- One session-log entry `{number, time, match}` (lines 122–126). The
JS field `match` is a Lean keyword, rendered `matched`. -/
structure LogEntry where
  number : String
  time : String
  matched : Bool
  deriving DecidableEq, Repr

/-- The component state touched by `processFrame`: the watch list, the
mode, the single-flight flag `isProcessing`, the session log, the alert
token `detectedRecently`, and a counter of `audioRef.current?.play()`
invocations standing for the audio side effect. -/
structure PollState where
  plates : List Plate
  mode : AppMode
  isProcessing : Bool
  sessionLog : List LogEntry
  detectedRecently : Option String
  audioPlays : Nat
  deriving DecidableEq, Repr

/-- External conditions read by the synchronous prefix of a tick:
whether `videoRef.current` / `canvasRef.current` are non-null, whether
`readyState === HAVE_ENOUGH_DATA`, whether `getContext('2d')` returns a
context, and the encoded frame payload. -/
structure TickEnv where
  videoPresent : Bool
  canvasPresent : Bool
  hasEnoughData : Bool
  contextAvailable : Bool
  base64 : String
  deriving DecidableEq, Repr

/-- How the synchronous prefix of a tick ended: `skipped` (an early
`return` before `setIsProcessing(true)`), `stuck` (the
`if (!context) return;` exit at line 102, after the flag was set),
or `issued` (the detection call was started on the captured payload). -/
inductive TickStartResult where
  | skipped
  | stuck
  | issued (base64 : String)
  deriving DecidableEq, Repr

/-- The synchronous prefix of `processFrame` (lines 97–115): the guard
`!videoRef.current || !canvasRef.current || isProcessing || mode !== FLASH`,
the `readyState` guard, `setIsProcessing(true)`, the `getContext` null
check, then frame capture and the detection call. -/
def tickStart (env : TickEnv) (st : PollState) : PollState × TickStartResult :=
  if env.videoPresent = false ∨ env.canvasPresent = false ∨
      st.isProcessing = true ∨ st.mode ≠ AppMode.FLASH then
    (st, TickStartResult.skipped)
  else if env.hasEnoughData = false then
    (st, TickStartResult.skipped)
  else
    let st1 := { st with isProcessing := true }
    if env.contextAvailable = false then
      (st1, TickStartResult.stuck)
    else
      (st1, TickStartResult.issued env.base64)

/-- `(entry :: log).slice(0, 10)` — the session-log update of lines
122–126. -/
def logPush (e : LogEntry) (log : List LogEntry) : List LogEntry :=
  (e :: log).take 10

/-- The log entry built for one raw detection `num` (lines 117–126):
normalized number, formatted wall-clock time `ts`, and the match flag
computed against the plate list captured by the callback closure. -/
def mkEntry (capturedPlates : List Plate) (ts : String) (num : String) : LogEntry :=
  { number := normalizePlate num
    time := ts
    matched := containsToken capturedPlates (normalizePlate num) }

/-- The body of `detected.forEach(num => ...)` (lines 117–133) for a
single raw detection: prepend the log entry (truncated to 10), and on a
match play the audio cue and write `detectedRecently`. The 5-second
`setTimeout` clear is modelled separately (see `alertStep`). -/
def applyDetection (capturedPlates : List Plate) (ts : String)
    (st : PollState) (num : String) : PollState :=
  let norm := normalizePlate num
  let isMatch := containsToken capturedPlates norm
  let st1 := { st with sessionLog := logPush (mkEntry capturedPlates ts num) st.sessionLog }
  if isMatch then
    { st1 with detectedRecently := some norm, audioPlays := st1.audioPlays + 1 }
  else
    st1

/-- The continuation of `processFrame` after `await` (lines 115–138): the
`forEach` over the detection result, then the `finally` block clearing
`isProcessing`. `capturedPlates` is the `plates` value captured by the
`useCallback` closure when the tick started; note the continuation never
re-reads `mode`. -/
def tickFinish (capturedPlates : List Plate) (ts : String)
    (detected : List String) (st : PollState) : PollState :=
  let st1 := detected.foldl (applyDetection capturedPlates ts) st
  { st1 with isProcessing := false }

/-! ## Alert timing (lines 128–132)

On a match, the code runs `setDetectedRecently(norm)` and
`setTimeout(() => setDetectedRecently(null), 5000)`. The timeout closure
clears unconditionally and is never cancelled. We model the alert value
over time with a small event simulator: an event is a pair
`(time, some token)` (a matching detection applied at `time`) or
`(time, none)` (a non-matching detection, which does not touch the
alert). Scheduled clears are kept as their fire times; a clear due at or
before the current instant fires (setting the alert to `none`) before
the current event is applied. -/

/-- Alert value plus the fire times of all pending `setTimeout` clears. -/
structure AlertSt where
  alert : Option String
  clears : List Nat
  deriving DecidableEq, Repr

/-- Fire every pending clear due at or before instant `t`: each runs
`setDetectedRecently(null)`, so the alert becomes `none` if any is due. -/
def fireDueClears (t : Nat) (st : AlertSt) : AlertSt :=
  if st.clears.any (fun c => c ≤ t) then
    { alert := none, clears := st.clears.filter (fun c => ¬ c ≤ t) }
  else
    st

/-- Process one detection event: first fire the clears already due, then
on a match write the token and schedule a clear 5000 ms later
(`setTimeout(..., 5000)`); a non-matching detection leaves the alert
alone. -/
def alertStep (st : AlertSt) (ev : Nat × Option String) : AlertSt :=
  let st1 := fireDueClears ev.1 st
  match ev.2 with
  | some tok => { alert := some tok, clears := st1.clears ++ [ev.1 + 5000] }
  | none => st1

/-- Run a chronologically ordered list of detection events from the
initial state (no alert, no pending clears). -/
def runAlerts (evs : List (Nat × Option String)) : AlertSt :=
  evs.foldl alertStep { alert := none, clears := [] }

/-- The alert value observed at instant `T`: process the events that
happened up to `T`, then fire the clears due by `T`. -/
def alertAfter (evs : List (Nat × Option String)) (T : Nat) : Option String :=
  (fireDueClears T (runAlerts (evs.filter (fun ev => ev.1 ≤ T)))).alert

/-- The event produced at instant `t` by applying one raw detection
(lines 117–132): a matching detection carries its normalized token, a
non-matching one carries nothing. -/
def matchEvent (plates : List Plate) (t : Nat) (num : String) : Nat × Option String :=
  let norm := normalizePlate num
  (t, if containsToken plates norm then some norm else none)

/-! ## Helper lemmas -/

/-- `Char.toUpper` fixes every character of the class `[A-Z0-9]`
(their codepoints are below 97, so the lowercase test fails). -/
theorem toUpper_fix {c : Char} (h : isPlateChar c = true) : Char.toUpper c = c := by
  simp only [isPlateChar, Bool.or_eq_true, decide_eq_true_eq] at h
  simp only [Char.toUpper]
  rw [if_neg (by omega)]

/-- Mapping `Char.toUpper` over a list of `[A-Z0-9]` characters is the
identity. -/
theorem map_toUpper_of_all_plate (l : List Char)
    (h : ∀ c ∈ l, isPlateChar c = true) : l.map Char.toUpper = l := by
  induction l with
  | nil => rfl
  | cons c l ih =>
    rw [List.map_cons, toUpper_fix (h c (by simp)),
      ih (fun x hx => h x (List.mem_cons_of_mem c hx))]

/-- The character-level normalizer is idempotent: its output is all
`[A-Z0-9]`, on which uppercasing and the filter are both the identity. -/
theorem normalizeChars_idem (l : List Char) :
    normalizeChars (normalizeChars l) = normalizeChars l := by
  have hall : ∀ c ∈ normalizeChars l, isPlateChar c = true := by
    intro c hc
    exact (List.mem_filter.mp hc).2
  show ((normalizeChars l).map Char.toUpper).filter isPlateChar = normalizeChars l
  rw [map_toUpper_of_all_plate _ hall]
  exact List.filter_eq_self.mpr hall

/-! ## C9 -/

/-- C9: the normalizer is idempotent — for all strings `s`,
`normalizePlate (normalizePlate s) = normalizePlate s`, where
`normalizePlate` uppercases and strips every character outside
`[A-Z0-9]`. -/
theorem normalizePlate_idempotent (s : String) :
    normalizePlate (normalizePlate s) = normalizePlate s :=
  congrArg String.mk (normalizeChars_idem s.data)

/-! ## C1 -/

/-- C1 counterexample: on an empty store, `addPlate "ab-12"` does not
fail with a `ValidationError` — the normalized token "AB12" has length
4, so the plate is inserted and no error is reported, contradicting the
claim that `add("ab-12")` fails. -/
theorem addPlate_ab12_succeeds :
    addPlate "uuid-1" 0 "ab-12" [] =
      ([{ id := "uuid-1", number := "AB12", createdAt := 0 }], none) := by
  decide

/-- C1 (amended): on an empty store, `addPlate "ab-12"` succeeds with
stored token "AB12" (normalized length 4 — boundary: length exactly 4
succeeds, length 3 fails); `addPlate "xyz"` fails with the too-short
`ValidationError` (token "XYZ", length 3); `addPlate "ab1-2"` succeeds
with stored token "AB12". -/
theorem addPlate_length_boundary (freshId : String) (now : Nat) :
    addPlate freshId now "ab-12" [] =
      ([{ id := freshId, number := "AB12", createdAt := now }], none) ∧
    addPlate freshId now "xyz" [] = ([], some ValidationError.tooShort) ∧
    addPlate freshId now "ab1-2" [] =
      ([{ id := freshId, number := "AB12", createdAt := now }], none) := by
  refine ⟨rfl, rfl, rfl⟩

/-! ## C6 -/

/-- C6: whenever the store already contains a plate whose `number`
equals the normalized form of the raw input, `addPlate` reports a
`ValidationError` and returns the store unchanged. -/
theorem addPlate_duplicate_fails (freshId : String) (now : Nat) (raw : String)
    (plates : List Plate) (h : ∃ p ∈ plates, p.number = normalizePlate raw) :
    (addPlate freshId now raw plates).1 = plates ∧
    (addPlate freshId now raw plates).2.isSome = true := by
  obtain ⟨p, hp, hnum⟩ := h
  by_cases hlen : (normalizePlate raw).length < 4
  · simp [addPlate, hlen]
  · have hany : plates.any (fun q => q.number == normalizePlate raw) = true := by
      rw [List.any_eq_true]
      exact ⟨p, hp, by simp [hnum]⟩
    simp [addPlate, hlen, hany]

/-- C6 witness: the store holds "AB123AA" and `addPlate "ab-123-aa"` is
called — the add fails and the store is unchanged. -/
theorem addPlate_duplicate_fails_witness :
    (∃ p ∈ [({ id := "u0", number := "AB123AA", createdAt := 0 } : Plate)],
        p.number = normalizePlate "ab-123-aa") ∧
    ((addPlate "u1" 5 "ab-123-aa"
        [{ id := "u0", number := "AB123AA", createdAt := 0 }]).1 =
      [{ id := "u0", number := "AB123AA", createdAt := 0 }] ∧
     (addPlate "u1" 5 "ab-123-aa"
        [{ id := "u0", number := "AB123AA", createdAt := 0 }]).2.isSome = true) :=
  ⟨by decide, addPlate_duplicate_fails "u1" 5 "ab-123-aa" _ (by decide)⟩

/-! ## C8 -/

/-- C8: removing a plate present in the store (whose stored numbers are
pairwise distinct, the store invariant) makes `containsToken` on its
token false; removing an id not present in the store returns the list
unchanged. -/
theorem removePlate_spec :
    (∀ (plates : List Plate) (p : Plate), p ∈ plates →
        plates.Pairwise (fun a b => a.number ≠ b.number) →
        containsToken (removePlate p.id plates) p.number = false) ∧
    (∀ (id : String) (plates : List Plate), (∀ q ∈ plates, q.id ≠ id) →
        removePlate id plates = plates) := by
  constructor
  · intro plates p hp hpw
    rw [containsToken, List.any_eq_false]
    intro q hq
    have hq' := List.mem_filter.mp hq
    have hqp : q ≠ p := by
      intro hEq
      have h2 := hq'.2
      rw [hEq] at h2
      simp at h2
    have hne : q.number ≠ p.number :=
      hpw.forall (fun a b h => Ne.symm h) hq'.1 hp hqp
    simp [hne]
  · intro id plates h
    rw [removePlate, List.filter_eq_self]
    intro q hq
    simpa using h q hq

/-- C8 witness: on the two-plate store [("a","AB12"),("b","CD34")],
removing id "a" makes `containsToken` of "AB12" false, and removing the
absent id "zz" leaves the store unchanged. -/
theorem removePlate_spec_witness :
    containsToken
      (removePlate "a" [{ id := "a", number := "AB12", createdAt := 0 },
        { id := "b", number := "CD34", createdAt := 1 }]) "AB12" = false ∧
    removePlate "zz" [{ id := "a", number := "AB12", createdAt := 0 },
        { id := "b", number := "CD34", createdAt := 1 }] =
      [{ id := "a", number := "AB12", createdAt := 0 },
        { id := "b", number := "CD34", createdAt := 1 }] :=
  ⟨removePlate_spec.1 _ { id := "a", number := "AB12", createdAt := 0 }
      (by decide) (by decide),
   removePlate_spec.2 "zz" _ (by decide)⟩

/-! ## C10 -/

/-- C10: any payload shorter than 50 characters (the empty string
included) makes `detectPlatesFromImage` return the empty list whatever
the external service would do — the guard returns before the call. -/
theorem detectPlates_short_input (api : GenAIResult)
    (parse : String → ParseResult) (b : String) (h : b.length < 50) :
    detectPlatesFromImage api parse b = [] := by
  unfold detectPlatesFromImage
  rw [if_pos h]

/-- C10 witness: the empty payload yields no detections even when the
external oracle would fail. -/
theorem detectPlates_short_input_witness :
    ("".length < 50) ∧
    detectPlatesFromImage GenAIResult.apiError
      (fun _ => ParseResult.parseError) "" = [] :=
  ⟨by decide, detectPlates_short_input _ _ _ (by decide)⟩

/-! ## C7 -/

/-- C7: a failing Detector call (the awaited API call rejects, or the
response text fails to parse) yields the empty detection list, and a
tick whose detection list is empty leaves the session log and the plate
list unchanged and clears the in-flight flag, so the next tick is
eligible and the loop continues. -/
theorem detectorFailure_tick_harmless (parse : String → ParseResult)
    (t b : String) (cp : List Plate) (ts : String) (st : PollState)
    (hp : parse t = ParseResult.parseError) :
    detectPlatesFromImage GenAIResult.apiError parse b = [] ∧
    detectPlatesFromImage (GenAIResult.ok (some t)) parse b = [] ∧
    (tickFinish cp ts [] st).sessionLog = st.sessionLog ∧
    (tickFinish cp ts [] st).plates = st.plates ∧
    (tickFinish cp ts [] st).isProcessing = false := by
  refine ⟨?_, ?_, rfl, rfl, rfl⟩
  · unfold detectPlatesFromImage
    split
    · rfl
    · rfl
  · simp only [detectPlatesFromImage, hp]
    split
    · rfl
    · split <;> rfl

/-- C7 witness: a 55-character payload with a rejecting API call and an
unparsable response both yield zero detections, and the empty tick
leaves the state untouched with the flag cleared. -/
theorem detectorFailure_tick_harmless_witness :
    ((fun _ : String => ParseResult.parseError) "garbage" =
        ParseResult.parseError) ∧
    (detectPlatesFromImage GenAIResult.apiError
        (fun _ => ParseResult.parseError)
        "0123456789012345678901234567890123456789012345678901234" = [] ∧
      detectPlatesFromImage (GenAIResult.ok (some "garbage"))
        (fun _ => ParseResult.parseError)
        "0123456789012345678901234567890123456789012345678901234" = [] ∧
      (tickFinish [] "12:00:00" []
          { plates := [], mode := AppMode.FLASH, isProcessing := true,
            sessionLog := [], detectedRecently := none,
            audioPlays := 0 }).sessionLog = [] ∧
      (tickFinish [] "12:00:00" []
          { plates := [], mode := AppMode.FLASH, isProcessing := true,
            sessionLog := [], detectedRecently := none,
            audioPlays := 0 }).plates = [] ∧
      (tickFinish [] "12:00:00" []
          { plates := [], mode := AppMode.FLASH, isProcessing := true,
            sessionLog := [], detectedRecently := none,
            audioPlays := 0 }).isProcessing = false) :=
  ⟨rfl, detectorFailure_tick_harmless (fun _ => ParseResult.parseError)
      "garbage" "0123456789012345678901234567890123456789012345678901234"
      [] "12:00:00" _ rfl⟩

/-! ## C5 -/

/-- Truncating the right operand of an append to `n` is invisible under
an outer `take n`. -/
theorem take_append_take {α : Type _} (A B : List α) (n : Nat) :
    (A ++ B.take n).take n = (A ++ B).take n := by
  rw [List.take_append_eq_append_take, List.take_append_eq_append_take,
    List.take_take, Nat.min_eq_left (Nat.sub_le n A.length)]

/-- Folding the session-log push over a list of raw detections, each
mapped to its entry by `g`, from a log of at most 10 entries, yields the
10 most recent entries, newest first. -/
theorem foldl_logPush_eq (g : String → LogEntry) (ds : List String) :
    ∀ l : List LogEntry, l.length ≤ 10 →
      ds.foldl (fun acc num => logPush (g num) acc) l =
        ((ds.map g).reverse ++ l).take 10 := by
  induction ds with
  | nil =>
    intro l h
    simp [List.take_of_length_le h]
  | cons d ds ih =>
    intro l h
    rw [List.foldl_cons]
    have h1 : (logPush (g d) l).length ≤ 10 := by
      simp only [logPush, List.length_take]
      omega
    rw [ih _ h1, List.map_cons, List.reverse_cons, List.append_assoc]
    show ((ds.map g).reverse ++ (g d :: l).take 10).take 10 = _
    rw [take_append_take]
    rfl

/-- The session log produced by a tick is the fold of the per-detection
push over the raw detections, each mapped to its log entry. -/
theorem tickFinish_sessionLog (cp : List Plate) (ts : String)
    (det : List String) (st : PollState) :
    (tickFinish cp ts det st).sessionLog =
      det.foldl (fun l num => logPush (mkEntry cp ts num) l) st.sessionLog := by
  show (det.foldl (applyDetection cp ts) st).sessionLog = _
  induction det generalizing st with
  | nil => rfl
  | cons num det ih =>
    rw [List.foldl_cons, List.foldl_cons, ih]
    congr 1
    show (applyDetection cp ts st num).sessionLog = _
    simp only [applyDetection]
    split <;> rfl

/-- C5: starting from a log of at most 10 entries (in particular the
empty session-start log), the session log never exceeds 10 entries, and
feeding 15 sequential detections in one tick leaves exactly the 10 most
recent entries, newest first (the reversal of the detection order),
with the 5 oldest evicted. -/
theorem sessionLog_cap (cp : List Plate) (ts : String) (det : List String)
    (st : PollState) (hlen : st.sessionLog.length ≤ 10) :
    (tickFinish cp ts det st).sessionLog.length ≤ 10 ∧
    (det.length = 15 →
      (tickFinish cp ts det st).sessionLog =
        ((det.map (mkEntry cp ts)).reverse).take 10 ∧
      (tickFinish cp ts det st).sessionLog.length = 10) := by
  have key : (tickFinish cp ts det st).sessionLog =
      ((det.map (mkEntry cp ts)).reverse ++ st.sessionLog).take 10 := by
    rw [tickFinish_sessionLog]
    exact foldl_logPush_eq (mkEntry cp ts) det st.sessionLog hlen
  constructor
  · rw [key, List.length_take]
    omega
  · intro h15
    have hlen2 : 10 ≤ ((det.map (mkEntry cp ts)).reverse).length := by
      simp [h15]
    refine ⟨?_, ?_⟩
    · rw [key, List.take_append_of_le_length hlen2]
    · rw [key, List.length_take, List.length_append]
      simp only [List.length_reverse, List.length_map, h15]
      omega

/-- C5 witness: 15 detections fed to a tick starting from an empty log
leave exactly the 10 most recent entries, newest first. -/
theorem sessionLog_cap_witness :
    (([] : List LogEntry).length ≤ 10) ∧
    ((tickFinish [] "t"
        ["p1", "p2", "p3", "p4", "p5", "p6", "p7", "p8", "p9", "p10",
          "p11", "p12", "p13", "p14", "p15"]
        { plates := [], mode := AppMode.FLASH, isProcessing := true,
          sessionLog := [], detectedRecently := none,
          audioPlays := 0 }).sessionLog.length ≤ 10 ∧
      (["p1", "p2", "p3", "p4", "p5", "p6", "p7", "p8", "p9", "p10",
          "p11", "p12", "p13", "p14", "p15"].length = 15 →
        (tickFinish [] "t"
          ["p1", "p2", "p3", "p4", "p5", "p6", "p7", "p8", "p9", "p10",
            "p11", "p12", "p13", "p14", "p15"]
          { plates := [], mode := AppMode.FLASH, isProcessing := true,
            sessionLog := [], detectedRecently := none,
            audioPlays := 0 }).sessionLog =
          ((["p1", "p2", "p3", "p4", "p5", "p6", "p7", "p8", "p9", "p10",
              "p11", "p12", "p13", "p14", "p15"].map (mkEntry [] "t")).reverse).take 10 ∧
        (tickFinish [] "t"
          ["p1", "p2", "p3", "p4", "p5", "p6", "p7", "p8", "p9", "p10",
            "p11", "p12", "p13", "p14", "p15"]
          { plates := [], mode := AppMode.FLASH, isProcessing := true,
            sessionLog := [], detectedRecently := none,
            audioPlays := 0 }).sessionLog.length = 10)) :=
  ⟨by decide, sessionLog_cap [] "t" _ _ (by decide)⟩

/-! ## C2 -/

/-- C2 counterexample: a tick that passes the guards but finds
`getContext('2d')` returning null (line 102: `if (!context) return;`)
exits with the in-flight flag set and no detection call issued, and the
flag is never cleared — the next tick, even with a fully healthy
environment, is skipped. This contradicts the claim that the in-flight
flag is cleared on every exit path of the per-tick processing. -/
theorem tickStart_stuck_flag_not_cleared :
    (tickStart
        { videoPresent := true, canvasPresent := true, hasEnoughData := true,
          contextAvailable := false, base64 := "frame" }
        { plates := [], mode := AppMode.FLASH, isProcessing := false,
          sessionLog := [], detectedRecently := none, audioPlays := 0 }).1.isProcessing
      = true ∧
    (tickStart
        { videoPresent := true, canvasPresent := true, hasEnoughData := true,
          contextAvailable := false, base64 := "frame" }
        { plates := [], mode := AppMode.FLASH, isProcessing := false,
          sessionLog := [], detectedRecently := none, audioPlays := 0 }).2
      = TickStartResult.stuck ∧
    tickStart
        { videoPresent := true, canvasPresent := true, hasEnoughData := true,
          contextAvailable := true, base64 := "frame2" }
        (tickStart
          { videoPresent := true, canvasPresent := true, hasEnoughData := true,
            contextAvailable := false, base64 := "frame" }
          { plates := [], mode := AppMode.FLASH, isProcessing := false,
            sessionLog := [], detectedRecently := none, audioPlays := 0 }).1
      = ((tickStart
          { videoPresent := true, canvasPresent := true, hasEnoughData := true,
            contextAvailable := false, base64 := "frame" }
          { plates := [], mode := AppMode.FLASH, isProcessing := false,
            sessionLog := [], detectedRecently := none, audioPlays := 0 }).1,
        TickStartResult.skipped) := by
  decide

/-- C2 (amended): while a detection call is in flight (`isProcessing`
set), a tick issues no second call and changes nothing; the continuation
of every issued call clears the flag on all its paths (success, failure,
or empty result); but on the early-exit path where the canvas 2d context
is unavailable, the tick sets the flag, issues no call, and never clears
the flag. -/
theorem singleFlight_and_clear :
    (∀ (env : TickEnv) (st : PollState), st.isProcessing = true →
        tickStart env st = (st, TickStartResult.skipped)) ∧
    (∀ (cp : List Plate) (ts : String) (det : List String) (st : PollState),
        (tickFinish cp ts det st).isProcessing = false) ∧
    (∀ (env : TickEnv) (st : PollState), st.isProcessing = false →
        st.mode = AppMode.FLASH → env.videoPresent = true →
        env.canvasPresent = true → env.hasEnoughData = true →
        env.contextAvailable = false →
        tickStart env st =
          ({ st with isProcessing := true }, TickStartResult.stuck)) := by
  refine ⟨?_, ?_, ?_⟩
  · intro env st h
    rw [tickStart, if_pos (Or.inr (Or.inr (Or.inl h)))]
  · intro cp ts det st
    rfl
  · intro env st h1 h2 h3 h4 h5 h6
    simp [tickStart, h1, h2, h3, h4, h5, h6]

/-- C2 witness: a busy tick skips; a finished tick has the flag clear;
the context-null tick leaves the flag stuck. -/
theorem singleFlight_and_clear_witness :
    tickStart
        { videoPresent := true, canvasPresent := true, hasEnoughData := true,
          contextAvailable := true, base64 := "f" }
        { plates := [], mode := AppMode.FLASH, isProcessing := true,
          sessionLog := [], detectedRecently := none, audioPlays := 0 } =
      ({ plates := [], mode := AppMode.FLASH, isProcessing := true,
          sessionLog := [], detectedRecently := none, audioPlays := 0 },
        TickStartResult.skipped) ∧
    (tickFinish [] "t" ["x"]
        { plates := [], mode := AppMode.FLASH, isProcessing := true,
          sessionLog := [], detectedRecently := none,
          audioPlays := 0 }).isProcessing = false ∧
    tickStart
        { videoPresent := true, canvasPresent := true, hasEnoughData := true,
          contextAvailable := false, base64 := "f" }
        { plates := [], mode := AppMode.FLASH, isProcessing := false,
          sessionLog := [], detectedRecently := none, audioPlays := 0 } =
      ({ plates := [], mode := AppMode.FLASH, isProcessing := true,
          sessionLog := [], detectedRecently := none, audioPlays := 0 },
        TickStartResult.stuck) :=
  ⟨singleFlight_and_clear.1 _ _ rfl,
   singleFlight_and_clear.2.1 [] "t" ["x"] _,
   singleFlight_and_clear.2.2 _ _ rfl rfl rfl rfl rfl rfl⟩

/-! ## C4 -/

/-- `applyDetection` neither reads nor writes the mode field. -/
theorem applyDetection_mode (cp : List Plate) (ts : String) (st : PollState)
    (num : String) (m : AppMode) :
    applyDetection cp ts { st with mode := m } num =
      { applyDetection cp ts st num with mode := m } := by
  simp only [applyDetection]
  split <;> rfl

/-- C4 counterexample: a detection call issued while Capturing resolves
with "ab-12" after the mode has switched to LIST; the result is still
applied — a session-log entry is recorded, the alert token "AB12" is
written, and the audio cue fires — where the claim requires it to be
discarded with none of these effects. -/
theorem lateResult_applied_counterexample :
    tickFinish [{ id := "u0", number := "AB12", createdAt := 0 }] "12:00:00"
        ["ab-12"]
        { plates := [{ id := "u0", number := "AB12", createdAt := 0 }],
          mode := AppMode.LIST, isProcessing := true, sessionLog := [],
          detectedRecently := none, audioPlays := 0 } =
      { plates := [{ id := "u0", number := "AB12", createdAt := 0 }],
        mode := AppMode.LIST, isProcessing := false,
        sessionLog := [{ number := "AB12", time := "12:00:00", matched := true }],
        detectedRecently := some "AB12", audioPlays := 1 } := by
  decide

/-- C4 (amended): the continuation applying a detection result never
reads the mode — it commutes with any mode change — so a result arriving
after the poller has left the Capturing state (mode back to LIST) is
still applied: on a match it prepends the session-log entry, writes the
alert token, and triggers the audio cue. The mode guard is evaluated
only at tick start, before the call is issued. -/
theorem tickFinish_ignores_mode :
    (∀ (cp : List Plate) (ts : String) (det : List String) (st : PollState)
        (m : AppMode),
        tickFinish cp ts det { st with mode := m } =
          { tickFinish cp ts det st with mode := m }) ∧
    (∀ (cp : List Plate) (ts : String) (raw : String) (st : PollState),
        st.mode = AppMode.LIST →
        containsToken cp (normalizePlate raw) = true →
        (tickFinish cp ts [raw] st).mode = AppMode.LIST ∧
        (tickFinish cp ts [raw] st).sessionLog =
          logPush (mkEntry cp ts raw) st.sessionLog ∧
        (tickFinish cp ts [raw] st).detectedRecently =
          some (normalizePlate raw) ∧
        (tickFinish cp ts [raw] st).audioPlays = st.audioPlays + 1) := by
  constructor
  · intro cp ts det st m
    show { det.foldl (applyDetection cp ts) { st with mode := m } with
        isProcessing := false } = _
    have hfold : det.foldl (applyDetection cp ts) { st with mode := m } =
        { det.foldl (applyDetection cp ts) st with mode := m } := by
      induction det generalizing st with
      | nil => rfl
      | cons num det ih =>
        rw [List.foldl_cons, List.foldl_cons, applyDetection_mode, ih]
    rw [hfold]
    rfl
  · intro cp ts raw st hmode hmatch
    refine ⟨?_, ?_, ?_, ?_⟩
    · show (applyDetection cp ts st raw).mode = AppMode.LIST
      rw [← hmode]
      simp only [applyDetection]
      split <;> rfl
    · show (applyDetection cp ts st raw).sessionLog = _
      simp only [applyDetection]
      split <;> rfl
    · show (applyDetection cp ts st raw).detectedRecently = _
      simp only [applyDetection, hmatch]
      rfl
    · show (applyDetection cp ts st raw).audioPlays = _
      simp only [applyDetection, hmatch]
      rfl

/-- C4 witness: instantiates both parts — the mode-commutation on a
concrete state, and the applied-after-leaving behaviour for the matching
raw detection "ab-12" against a store watching "AB12". -/
theorem tickFinish_ignores_mode_witness :
    tickFinish [] "t" ["zz"]
        { plates := [], mode := AppMode.LIST, isProcessing := true,
          sessionLog := [], detectedRecently := none, audioPlays := 0 } =
      { tickFinish [] "t" ["zz"]
          { plates := [], mode := AppMode.FLASH, isProcessing := true,
            sessionLog := [], detectedRecently := none, audioPlays := 0 }
        with mode := AppMode.LIST } ∧
    ((tickFinish [{ id := "u0", number := "AB12", createdAt := 0 }] "12:00:00"
        ["ab-12"]
        { plates := [{ id := "u0", number := "AB12", createdAt := 0 }],
          mode := AppMode.LIST, isProcessing := true, sessionLog := [],
          detectedRecently := none, audioPlays := 0 }).mode = AppMode.LIST ∧
      (tickFinish [{ id := "u0", number := "AB12", createdAt := 0 }] "12:00:00"
        ["ab-12"]
        { plates := [{ id := "u0", number := "AB12", createdAt := 0 }],
          mode := AppMode.LIST, isProcessing := true, sessionLog := [],
          detectedRecently := none, audioPlays := 0 }).sessionLog =
        logPush (mkEntry [{ id := "u0", number := "AB12", createdAt := 0 }]
          "12:00:00" "ab-12") [] ∧
      (tickFinish [{ id := "u0", number := "AB12", createdAt := 0 }] "12:00:00"
        ["ab-12"]
        { plates := [{ id := "u0", number := "AB12", createdAt := 0 }],
          mode := AppMode.LIST, isProcessing := true, sessionLog := [],
          detectedRecently := none, audioPlays := 0 }).detectedRecently =
        some (normalizePlate "ab-12") ∧
      (tickFinish [{ id := "u0", number := "AB12", createdAt := 0 }] "12:00:00"
        ["ab-12"]
        { plates := [{ id := "u0", number := "AB12", createdAt := 0 }],
          mode := AppMode.LIST, isProcessing := true, sessionLog := [],
          detectedRecently := none, audioPlays := 0 }).audioPlays = 0 + 1) :=
  ⟨tickFinish_ignores_mode.1 [] "t" ["zz"]
      { plates := [], mode := AppMode.FLASH, isProcessing := true,
        sessionLog := [], detectedRecently := none, audioPlays := 0 }
      AppMode.LIST,
   tickFinish_ignores_mode.2
      [{ id := "u0", number := "AB12", createdAt := 0 }] "12:00:00" "ab-12"
      { plates := [{ id := "u0", number := "AB12", createdAt := 0 }],
        mode := AppMode.LIST, isProcessing := true, sessionLog := [],
        detectedRecently := none, audioPlays := 0 } rfl (by decide)⟩

/-! ## C3 -/

/-- C3 counterexample: both "AB12" and "CD34" are watched; a matching
detection at t=0 is followed by a matching detection at t=3000. The
claim requires the second match to reset the 5-second window, keeping
the alert at "CD34" until t=8000; but the first match's uncancelled
`setTimeout` fires at t=5000 and clears it, so at t=7000 the alert is
already gone (while at t=4999 it still shows "CD34"). -/
theorem alert_window_not_reset :
    alertAfter
        [matchEvent [{ id := "u0", number := "AB12", createdAt := 0 },
            { id := "u1", number := "CD34", createdAt := 0 }] 0 "ab-12",
         matchEvent [{ id := "u0", number := "AB12", createdAt := 0 },
            { id := "u1", number := "CD34", createdAt := 0 }] 3000 "cd-34"]
        7000 = none ∧
    alertAfter
        [matchEvent [{ id := "u0", number := "AB12", createdAt := 0 },
            { id := "u1", number := "CD34", createdAt := 0 }] 0 "ab-12",
         matchEvent [{ id := "u0", number := "AB12", createdAt := 0 },
            { id := "u1", number := "CD34", createdAt := 0 }] 3000 "cd-34"]
        4999 = some "CD34" := by
  decide

/-- C3 (amended): a detection matching a watched token sets the alert to
that token; a subsequent non-matching detection does not clear it before
its 5 seconds elapse; a second matching detection before the first clear
overwrites the alert with the newer token but does not cancel the
earlier scheduled clear, which fires exactly 5 seconds after its own
write — never earlier — and then clears the alert even though the newer
token's 5-second window is still open. -/
theorem alert_timing :
    (∀ (wl : List Plate) (t T : Nat) (raw : String),
        containsToken wl (normalizePlate raw) = true → t ≤ T →
        T < t + 5000 →
        alertAfter [matchEvent wl t raw] T = some (normalizePlate raw)) ∧
    (∀ (wl : List Plate) (t0 t1 T : Nat) (rA rB : String),
        containsToken wl (normalizePlate rA) = true →
        containsToken wl (normalizePlate rB) = false →
        t0 < t1 → t1 ≤ T → T < t0 + 5000 →
        alertAfter [matchEvent wl t0 rA, matchEvent wl t1 rB] T =
          some (normalizePlate rA)) ∧
    (∀ (wl : List Plate) (t0 t1 T : Nat) (rA rB : String),
        containsToken wl (normalizePlate rA) = true →
        containsToken wl (normalizePlate rB) = true →
        t0 < t1 → t1 < t0 + 5000 → t1 ≤ T →
        alertAfter [matchEvent wl t0 rA, matchEvent wl t1 rB] T =
          if T < t0 + 5000 then some (normalizePlate rB) else none) := by
  refine ⟨?_, ?_, ?_⟩
  · intro wl t T raw hm ht hT
    have h1 : ¬ (t + 5000 ≤ T) := by omega
    simp [alertAfter, runAlerts, alertStep, fireDueClears, matchEvent, hm,
      ht, h1]
  · intro wl t0 t1 T rA rB hA hB h01 h1T hT5
    have ht0 : t0 ≤ T := by omega
    have hc1 : ¬ (t0 + 5000 ≤ t1) := by omega
    have hc2 : ¬ (t0 + 5000 ≤ T) := by omega
    simp [alertAfter, runAlerts, alertStep, fireDueClears, matchEvent, hA,
      hB, ht0, h1T, hc1, hc2]
  · intro wl t0 t1 T rA rB hA hB h01 h15 h1T
    have ht0 : t0 ≤ T := by omega
    have hc1 : ¬ (t0 + 5000 ≤ t1) := by omega
    by_cases hT5 : T < t0 + 5000
    · have hc2 : ¬ (t0 + 5000 ≤ T) := by omega
      have hc3 : ¬ (t1 + 5000 ≤ T) := by omega
      simp [alertAfter, runAlerts, alertStep, fireDueClears, matchEvent,
        hA, hB, ht0, h1T, hc1, hc2, hc3, hT5]
    · have hc2 : t0 + 5000 ≤ T := by omega
      simp [alertAfter, runAlerts, alertStep, fireDueClears, matchEvent,
        hA, hB, ht0, h1T, hc1, hc2, hT5]

/-- C3 witness: instantiates the amended alert-timing theorem on the
watchlist ["AB12","CD34"] — a single match observed within its window,
a match followed by a non-matching detection, and two matches where the
first clear fires at t=5000 and t=7000 finds the alert gone. -/
theorem alert_timing_witness :
    alertAfter
        [matchEvent [{ id := "u0", number := "AB12", createdAt := 0 },
            { id := "u1", number := "CD34", createdAt := 0 }] 0 "ab-12"]
        4000 = some (normalizePlate "ab-12") ∧
    alertAfter
        [matchEvent [{ id := "u0", number := "AB12", createdAt := 0 },
            { id := "u1", number := "CD34", createdAt := 0 }] 0 "ab-12",
         matchEvent [{ id := "u0", number := "AB12", createdAt := 0 },
            { id := "u1", number := "CD34", createdAt := 0 }] 2000 "zz-99"]
        4000 = some (normalizePlate "ab-12") ∧
    alertAfter
        [matchEvent [{ id := "u0", number := "AB12", createdAt := 0 },
            { id := "u1", number := "CD34", createdAt := 0 }] 0 "ab-12",
         matchEvent [{ id := "u0", number := "AB12", createdAt := 0 },
            { id := "u1", number := "CD34", createdAt := 0 }] 3000 "cd-34"]
        7000 = if (7000 : Nat) < 0 + 5000 then some (normalizePlate "cd-34")
          else none :=
  ⟨alert_timing.1 _ 0 4000 "ab-12" (by decide) (by decide) (by decide),
   alert_timing.2.1 _ 0 2000 4000 "ab-12" "zz-99" (by decide) (by decide)
      (by decide) (by decide) (by decide),
   alert_timing.2.2 _ 0 3000 7000 "ab-12" "cd-34" (by decide) (by decide)
      (by decide) (by decide) (by decide)⟩

end FlashPlate
